import Mathlib

/-!
Shallow embedding of the nf-core/stats pipeline code that the claims
C1-C10 are about:

* `pipeline/src/nf_core_stats/_github.py`: the retry-enabled HTTP client
  configuration, `check_rate_limit`, `github_request`, `get_paginated_data`.
* `pipeline/src/nf_core_stats/github_pipeline.py`: the per-repository body
  of `traffic_stats` (fetch, error handling, join-by-timestamp merge) and
  the per-issue body of `issue_stats` (comment-refetch decision, checkpoint
  update, emitted record).
* `regulatory/report_helpers.py`: `calculate_trust_score`, idealised over
  the real numbers.

Each definition follows the source line by line; where the source relies
on library behaviour (the DLT requests client), the model follows the
configuration and the behaviour documented in the source's own comments.
-/

namespace NFCoreStats

/-- A JSON value, as produced by `response.json()`. -/
inductive JVal where
  | num (n : Int)
  | str (s : String)
  | boolean (b : Bool)
  | null
  | arr (elems : List JVal)
  | obj (fields : List (String × JVal))

/-- The dict key `"items"` tested by `get_paginated_data`. -/
def itemsKey : String := "items"

/-- The outcome of `github_request` on one URL of a pagination chain: a
response whose JSON body is `body` (the `next` link, when present, leads to
the following element of the chain), or an exception once the retry policy
is exhausted. -/
inductive PageFetch where
  | ok (body : JVal)
  | fail

/-- What `get_paginated_data` returns: the accumulated `all_results` list,
or — for a body that is neither a list nor a dict with an `items` key — the
body itself (`return data  # Non-paginated response`). -/
inductive PagedResult where
  | items (results : List JVal)
  | single (data : JVal)

/-- An exception escaping `get_paginated_data`: the request error raised by
`github_request` after retries, or the TypeError Python raises when
`all_results.extend(data["items"])` is given a non-iterable value.  (A
string value would instead be iterated character-wise in Python; no claim
evaluates that case, and the model folds it into `typeError`.) -/
inductive PagedError where
  | requestError
  | typeError
deriving DecidableEq

/-- The `while url:` loop of `get_paginated_data`, over the finite chain of
pages reachable from the starting URL.  `all_results` is the accumulator. -/
def paginate_loop : List PageFetch → List JVal → Except PagedError PagedResult
  | [], all_results => .ok (.items all_results)
  | .fail :: _, _ => .error .requestError
  | .ok body :: rest, all_results =>
    match body with
    | .obj fields =>
      match fields.lookup itemsKey with
      | some (.arr elems) => paginate_loop rest (all_results ++ elems)
      | some _ => .error .typeError
      | none => .ok (.single (JVal.obj fields))
    | .arr elems => paginate_loop rest (all_results ++ elems)
    | body => .ok (.single body)

/-- `get_paginated_data(url, headers)`: run the loop with `all_results = []`. -/
def get_paginated_data (pages : List PageFetch) : Except PagedError PagedResult :=
  paginate_loop pages []

/-- The item list of a page body in the two paginated shapes the spec
describes: a bare list, or a dict whose `items` key holds a list. -/
def pageItems : JVal → Option (List JVal)
  | .arr elems => some elems
  | .obj fields =>
    match fields.lookup itemsKey with
    | some (.arr elems) => some elems
    | _ => none
  | _ => none

/-- Is the body a bare JSON list? -/
def isBareList : JVal → Bool
  | .arr _ => true
  | _ => false

/-- Is the body a dict that contains the `items` key? -/
def hasItemsKey : JVal → Bool
  | .obj fields => (fields.lookup itemsKey).isSome
  | _ => false

theorem paginate_loop_pages_ok (pages : List JVal) (ls : List (List JVal))
    (k : List PageFetch) (acc : List JVal)
    (h : pages.map pageItems = ls.map some) :
    paginate_loop (pages.map PageFetch.ok ++ k) acc
      = paginate_loop k (acc ++ ls.flatten) := by
  induction pages generalizing ls acc with
  | nil =>
    cases ls with
    | nil => simp [paginate_loop]
    | cons l ls2 => simp at h
  | cons p ps ih =>
    cases ls with
    | nil => simp at h
    | cons l ls2 =>
      simp only [List.map_cons, List.cons.injEq] at h
      obtain ⟨h1, h2⟩ := h
      cases p with
      | arr elems =>
        simp only [pageItems, Option.some.injEq] at h1
        subst h1
        simpa [paginate_loop, List.append_assoc] using ih ls2 (acc ++ elems) h2
      | obj fields =>
        simp only [pageItems] at h1
        cases hlk : fields.lookup itemsKey with
        | none => rw [hlk] at h1; simp at h1
        | some v =>
          cases v with
          | arr elems =>
            rw [hlk] at h1
            simp only [Option.some.injEq] at h1
            subst h1
            simp only [List.cons_append, paginate_loop, hlk]
            simpa [List.append_assoc] using ih ls2 (acc ++ elems) h2
          | num n => rw [hlk] at h1; simp at h1
          | str s => rw [hlk] at h1; simp at h1
          | boolean b => rw [hlk] at h1; simp at h1
          | null => rw [hlk] at h1; simp at h1
          | obj fs => rw [hlk] at h1; simp at h1
      | num n => simp [pageItems] at h1
      | str s => simp [pageItems] at h1
      | boolean b => simp [pageItems] at h1
      | null => simp [pageItems] at h1

theorem paginate_loop_single (body : JVal) (rest : List PageFetch)
    (acc : List JVal) (hb : isBareList body = false)
    (hk : hasItemsKey body = false) :
    paginate_loop (PageFetch.ok body :: rest) acc = .ok (.single body) := by
  cases body with
  | obj fields =>
    cases hlk : fields.lookup itemsKey with
    | none => simp [paginate_loop, hlk]
    | some v => simp [hasItemsKey, hlk] at hk
  | arr elems => simp [isBareList] at hb
  | num n => simp [paginate_loop]
  | str s => simp [paginate_loop]
  | boolean b => simp [paginate_loop]
  | null => simp [paginate_loop]

/-- C1: over a finite chain of pages each shaped as a bare list or as a dict
with an `items` list, `get_paginated_data` returns exactly the concatenation
of the per-page item lists in fetch order; and a first response that is
neither a list nor a dict with an `items` key is returned as-is, with no
further iteration. -/
theorem C1_get_paginated_data_concat :
    (∀ (pages : List JVal) (ls : List (List JVal)),
        pages.map pageItems = ls.map some →
        get_paginated_data (pages.map PageFetch.ok) = .ok (.items ls.flatten))
    ∧ (∀ (body : JVal) (rest : List PageFetch),
        isBareList body = false → hasItemsKey body = false →
        get_paginated_data (PageFetch.ok body :: rest) = .ok (.single body)) := by
  constructor
  · intro pages ls h
    have := paginate_loop_pages_ok pages ls [] [] h
    simpa [get_paginated_data, paginate_loop] using this
  · intro body rest hb hk
    exact paginate_loop_single body rest [] hb hk

/-- Witness for C1 at a concrete two-page chain and a concrete
non-paginated body. -/
theorem C1_get_paginated_data_concat_witness :
    get_paginated_data
        ([JVal.arr [JVal.num 1],
          JVal.obj [(itemsKey, JVal.arr [JVal.num 2, JVal.num 3])]].map PageFetch.ok)
      = .ok (.items ([[JVal.num 1], [JVal.num 2, JVal.num 3]] : List (List JVal)).flatten)
    ∧ get_paginated_data [PageFetch.ok (JVal.obj [])] = .ok (.single (JVal.obj [])) :=
  ⟨C1_get_paginated_data_concat.1
      [JVal.arr [JVal.num 1], JVal.obj [(itemsKey, JVal.arr [JVal.num 2, JVal.num 3])]]
      [[JVal.num 1], [JVal.num 2, JVal.num 3]] rfl,
   C1_get_paginated_data_concat.2 (JVal.obj []) [] rfl rfl⟩

/-- C10: once items have been accumulated, a later page whose body is a dict
without an `items` key makes `get_paginated_data` return that dict alone,
silently discarding every previously accumulated item. -/
theorem C10_late_single_discards (pre : List JVal) (ls : List (List JVal))
    (fields : List (String × JVal)) (rest : List PageFetch)
    (hpre : pre.map pageItems = ls.map some)
    (hni : (fields.lookup itemsKey).isSome = false) :
    get_paginated_data
        (pre.map PageFetch.ok ++ PageFetch.ok (JVal.obj fields) :: rest)
      = .ok (.single (JVal.obj fields)) := by
  unfold get_paginated_data
  rw [paginate_loop_pages_ok pre ls _ [] hpre]
  exact paginate_loop_single (JVal.obj fields) rest _ rfl
    (by simpa [hasItemsKey] using hni)

/-- Witness for C10: one accumulated page, then an `items`-less dict. -/
theorem C10_late_single_discards_witness :
    get_paginated_data
        ([JVal.arr [JVal.num 7]].map PageFetch.ok
          ++ PageFetch.ok (JVal.obj [(itemsKey ++ itemsKey, JVal.num 0)]) :: [])
      = .ok (.single (JVal.obj [(itemsKey ++ itemsKey, JVal.num 0)])) :=
  C10_late_single_discards [JVal.arr [JVal.num 7]] [[JVal.num 7]]
    [(itemsKey ++ itemsKey, JVal.num 0)] [] rfl rfl

/-- C6 counterexample: with one page of items already accumulated, a failing
second page makes `get_paginated_data` propagate the request error; the
partial result `[1]` is not returned. -/
theorem C6_counterexample :
    get_paginated_data [PageFetch.ok (JVal.arr [JVal.num 1]), PageFetch.fail]
        = .error .requestError
    ∧ ∀ r : PagedResult,
        get_paginated_data [PageFetch.ok (JVal.arr [JVal.num 1]), PageFetch.fail]
          ≠ .ok r := by
  refine ⟨rfl, ?_⟩
  intro r h
  rw [show get_paginated_data [PageFetch.ok (JVal.arr [JVal.num 1]), PageFetch.fail]
        = .error .requestError from rfl] at h
  exact Except.noConfusion h

/-- C6 amended: a page fetch that fails after retries makes
`get_paginated_data` raise; everything accumulated from the earlier pages is
discarded, and no partial result is returned. -/
theorem C6_failure_discards_partial (pre : List JVal) (ls : List (List JVal))
    (rest : List PageFetch)
    (hpre : pre.map pageItems = ls.map some) :
    get_paginated_data (pre.map PageFetch.ok ++ PageFetch.fail :: rest)
      = .error .requestError := by
  unfold get_paginated_data
  rw [paginate_loop_pages_ok pre ls _ [] hpre]
  rfl

/-- Witness for the amended C6 at a concrete chain. -/
theorem C6_failure_discards_partial_witness :
    get_paginated_data
        ([JVal.arr [JVal.num 4, JVal.num 5]].map PageFetch.ok
          ++ PageFetch.fail :: [])
      = .error .requestError :=
  C6_failure_discards_partial [JVal.arr [JVal.num 4, JVal.num 5]]
    [[JVal.num 4, JVal.num 5]] [] rfl

/-! ## `github_request` and the retry-enabled client (`_github.py`) -/

/-- An HTTP response, with the headers the source reads. -/
structure Resp where
  status : Nat
  /-- the `X-RateLimit-Remaining` header, when present -/
  rateRemaining : Option Nat
  /-- the `X-RateLimit-Reset` header, when present -/
  rateReset : Option Nat
  /-- the `Retry-After` header, when present -/
  retryAfter : Option Nat
deriving DecidableEq

/-- `http_client` configuration: `request_max_attempts=5`. -/
def request_max_attempts : Nat := 5

/-- `http_client` configuration: `request_backoff_factor=1`. -/
def request_backoff_factor : Nat := 1

/-- `http_client` configuration: `request_max_retry_delay=300`. -/
def request_max_retry_delay : Nat := 300

/-- Statuses the DLT client retries, per the source's own comments on
`http_client` and `github_request`: 429 and 5xx server errors.  (Transient
network errors are also retried; the model covers status-carrying
responses.) -/
def retryableStatus (s : Nat) : Bool :=
  s == 429 || (500 ≤ s && s < 600)

/-- The exponential backoff delay before retry `i`, capped by the maximum
retry delay ("Uses configurable backoff (1s, 2s, 4s, 8s, 16s)"). -/
def backoffDelay (i : Nat) : Nat :=
  min (request_backoff_factor * 2 ^ i) request_max_retry_delay

/-- The retrying `http_client.get`: `server i` is the response to the i-th
attempt; `fuel` is the number of retries still allowed.  Returns the final
response together with the list of sleep delays issued before retries. -/
def clientRetry (server : Nat → Resp) (i : Nat) : Nat → Resp × List Nat
  | 0 => (server i, [])
  | fuel + 1 =>
    let r := server i
    if retryableStatus r.status then
      let next := clientRetry server (i + 1) fuel
      (next.1, backoffDelay i :: next.2)
    else (r, [])

/-- `http_client.get(url, headers=headers)`: up to `request_max_attempts`
attempts, i.e. at most 4 sleeping retries after the first try. -/
def http_client_get (server : Nat → Resp) : Resp × List Nat :=
  clientRetry server 0 (request_max_attempts - 1)

/-- The exceptions `github_request` raises, one constructor per `raise`
site: the fail-fast `HTTPError` for a 403 with `X-RateLimit-Remaining: 0`,
the `HTTPError` for a 429 that survived the client's retries, and the
generic `raise_for_status` error. -/
inductive GHError where
  | rateLimitExhausted (reset : Option Nat)
  | rateLimitAfterRetries (reset : Nat)
  | httpStatus (status : Nat)
deriving DecidableEq

/-- `github_request(url, headers)`: one retrying client call followed by
the source's status checks, in source order.  Returns the result (response
or raised error) together with the sleep delays the client issued. -/
def github_request (server : Nat → Resp) : Except GHError Resp × List Nat :=
  let out := http_client_get server
  let r := out.1
  let res : Except GHError Resp :=
    if r.status == 403 && r.rateRemaining == some 0 then
      .error (.rateLimitExhausted r.rateReset)
    else if r.status == 429 then
      .error (.rateLimitAfterRetries (r.rateReset.getD (r.retryAfter.getD 0)))
    else if 400 ≤ r.status then
      -- response.raise_for_status(): raises for 4xx and 5xx statuses
      .error (.httpStatus r.status)
    else .ok r
  (res, out.2)

/-- C2 counterexample: a server that always answers 429.  The claim says a
429 is never retried (no sleeping retry), but the client issues the sleeping
retries 1s, 2s, 4s, 8s before `github_request` raises the fatal error. -/
theorem C2_counterexample :
    (github_request (fun _ => ⟨429, some 0, some 1000, none⟩)).2 ≠ []
    ∧ github_request (fun _ => ⟨429, some 0, some 1000, none⟩)
        = (.error (.rateLimitAfterRetries 1000), [1, 2, 4, 8]) := by
  constructor
  · intro h
    have h2 : ([1, 2, 4, 8] : List Nat) = [] := h
    exact List.noConfusion h2
  · rfl

/-- C2 amended: a 403 with `X-RateLimit-Remaining: 0` is never retried and
makes `github_request` raise the distinguishable fatal error carrying the
reset time; a 429 is retried with exponential backoff (1s, 2s, 4s, 8s) up to
the 5-attempt cap and, if still 429, raises the distinguishable fatal error
carrying the reset time; a plain 5xx is retried the same way and only then
raised via `raise_for_status`. -/
theorem C2_rate_limit_handling :
    (∀ server : Nat → Resp,
        (server 0).status = 403 → (server 0).rateRemaining = some 0 →
        github_request server
          = (.error (.rateLimitExhausted (server 0).rateReset), []))
    ∧ (∀ r : Resp, r.status = 429 →
        github_request (fun _ => r)
          = (.error (.rateLimitAfterRetries (r.rateReset.getD (r.retryAfter.getD 0))),
              [1, 2, 4, 8]))
    ∧ (∀ r : Resp, 500 ≤ r.status → r.status < 600 →
        github_request (fun _ => r)
          = (.error (.httpStatus r.status), [1, 2, 4, 8])) := by
  refine ⟨?_, ?_, ?_⟩
  · intro server h403 hrem
    have hnr : retryableStatus 403 = false := by decide
    simp [github_request, http_client_get, clientRetry, request_max_attempts,
      hnr, h403, hrem]
  · intro r h429
    have hr : retryableStatus 429 = true := by decide
    simp [github_request, http_client_get, clientRetry, request_max_attempts,
      hr, h429, backoffDelay, request_backoff_factor, request_max_retry_delay]
  · intro r h5 h6
    have hr : retryableStatus r.status = true := by
      simp only [retryableStatus, Bool.or_eq_true, beq_iff_eq, Bool.and_eq_true,
        decide_eq_true_eq]
      omega
    have hne429 : (r.status == 429) = false := by
      simp only [beq_eq_false_iff_ne, ne_eq]
      omega
    have hne403 : (r.status == 403) = false := by
      simp only [beq_eq_false_iff_ne, ne_eq]
      omega
    have h400 : 400 ≤ r.status := by omega
    simp [github_request, http_client_get, clientRetry, request_max_attempts,
      hr, hne429, hne403, h400, backoffDelay, request_backoff_factor,
      request_max_retry_delay]

/-- Witness for the amended C2 at three concrete servers: a permanent
403-with-zero-quota, a permanent 429, and a permanent 503. -/
theorem C2_rate_limit_handling_witness :
    github_request (fun _ => ⟨403, some 0, some 77, none⟩)
        = (.error (.rateLimitExhausted (some 77)), [])
    ∧ github_request (fun _ => ⟨429, none, none, some 9⟩)
        = (.error (.rateLimitAfterRetries 9), [1, 2, 4, 8])
    ∧ github_request (fun _ => ⟨503, none, none, none⟩)
        = (.error (.httpStatus 503), [1, 2, 4, 8]) :=
  ⟨C2_rate_limit_handling.1 (fun _ => ⟨403, some 0, some 77, none⟩) rfl rfl,
   C2_rate_limit_handling.2.1 ⟨429, none, none, some 9⟩ rfl,
   C2_rate_limit_handling.2.2 ⟨503, none, none, none⟩ (by decide) (by decide)⟩

/-! ## `issue_stats` (`github_pipeline.py`): comment refetch decision,
checkpoint update, emitted record -/

/-- The per-issue entry stored in `state["processed_issues"][repo][issue]`. -/
structure IssueCheckpoint where
  num_comments : Nat
  first_response_seconds : Option Int
  first_responder : Option String
deriving DecidableEq

/-- An issue comment, reduced to the fields the source reads:
`comment.get("user", {}).get("login")` (with `none` covering a missing user,
a missing login, or a falsy empty login) and `created_at` in seconds. -/
structure IssueComment where
  login : Option String
  created_at : Int
deriving DecidableEq

/-- An issue payload, reduced to the fields the per-issue comment logic
reads: `issue["comments"]`, `issue["user"]["login"]`, and `created_at` in
seconds. -/
structure Issue where
  number : Nat
  comments : Nat
  user_login : String
  created_at : Int
deriving DecidableEq

/-- `previous_data.get("num_comments", 0)` where
`previous_data = repo_processed.get(issue_key, {})`. -/
def previous_comment_count (prev : Option IssueCheckpoint) : Nat :=
  (prev.map IssueCheckpoint.num_comments).getD 0

/-- The `should_fetch_comments` expression of `issue_stats`, with `prev` the
checkpoint lookup of this issue's key (so `prev.isNone` is
`issue_key not in repo_processed`). -/
def should_fetch_comments (fetch_comments : Bool) (prev : Option IssueCheckpoint)
    (current_comment_count : Nat) : Bool :=
  fetch_comments && decide (current_comment_count > 0) &&
    (prev.isNone || (current_comment_count != previous_comment_count prev))

/-- The same decision read off the per-repository checkpoint mapping
`repo_processed` (the dict `state["processed_issues"][name]`, modelled as an
association list): `issue_key not in repo_processed` is a failing lookup,
and `previous_data` is the lookup result. -/
def should_fetch_comments_map (fetch_comments : Bool)
    (repo_processed : List (String × IssueCheckpoint)) (issue_key : String)
    (current_comment_count : Nat) : Bool :=
  fetch_comments && decide (current_comment_count > 0) &&
    ((repo_processed.lookup issue_key).isNone
      || (current_comment_count
            != previous_comment_count (repo_processed.lookup issue_key)))

/-- `check_rate_limit` is called with `min_remaining=500`. -/
def min_remaining_floor : Nat := 500

/-- The warning `check_rate_limit` logs when the remaining quota is below
`min_remaining`. -/
def low_rate_warning (remaining : Nat) : Bool := remaining < min_remaining_floor

/-- `fetch_comments = rate_status["remaining"] > 500` in `issue_stats`. -/
def fetch_comments_flag (remaining : Nat) : Bool := min_remaining_floor < remaining

/-- The warning `issue_stats` logs ("Skipping comment fetching due to low
rate limit") when `fetch_comments` is false. -/
def skip_comments_warning (remaining : Nat) : Bool := !fetch_comments_flag remaining

/-- The `for comment in comments` scan: the first comment with a truthy
login different from the issue author's gives the response time (comment
time minus issue creation time) and the responder, then `break`. -/
def first_response (issue_login : String) (created_at : Int) :
    List IssueComment → Option (Int × String)
  | [] => none
  | c :: rest =>
    match c.login with
    | some login =>
      if login ≠ issue_login then some (c.created_at - created_at, login)
      else first_response issue_login created_at rest
    | none => first_response issue_login created_at rest

/-- The outcome of `get_paginated_data` on the comments URL: a list of
comments, or a `RequestException` caught by the inner `try` (a non-list
result behaves exactly like the failure case: no comment is scanned). -/
inductive CommentsFetch where
  | success (comments : List IssueComment)
  | failure
deriving DecidableEq

/-- The fields of the yielded issue record that the claims speak of (the
remaining yielded fields are copied verbatim from the issue payload). -/
structure IssueRecord where
  num_comments : Nat
  first_response_seconds : Option Int
  first_responder : Option String
deriving DecidableEq

/-- The per-issue body of `issue_stats`: decide whether to refetch
comments, compute the first-response fields (falling back to the cached
checkpoint values), store the new checkpoint entry, and yield the record.
Returns (new checkpoint entry, yielded record). -/
def process_issue (fetch_comments : Bool) (prev : Option IssueCheckpoint)
    (issue : Issue) (fetch : CommentsFetch) : IssueCheckpoint × IssueRecord :=
  let current_comment_count := issue.comments
  let sfc := should_fetch_comments fetch_comments prev current_comment_count
  -- first_response_time = previous_data.get("first_response_seconds")
  let cached_frt := (prev.map IssueCheckpoint.first_response_seconds).getD none
  -- first_responder = previous_data.get("first_responder")
  let cached_frd := (prev.map IssueCheckpoint.first_responder).getD none
  let fr :=
    if sfc then
      match fetch with
      | .success comments =>
        match first_response issue.user_login issue.created_at comments with
        | some tl => (some tl.1, some tl.2)
        | none => (cached_frt, cached_frd)
      | .failure => (cached_frt, cached_frd)
    else (cached_frt, cached_frd)
  let entry : IssueCheckpoint := ⟨current_comment_count, fr.1, fr.2⟩
  (entry, ⟨current_comment_count, fr.1, fr.2⟩)

/-- A login for concrete inputs. -/
def loginA : String := "alice"

/-- Another login for concrete inputs. -/
def loginB : String := "bob"

/-- An issue key (`str(issue["number"])`) for concrete inputs. -/
def issueKeyA : String := "17"

/-- C3 counterexample: comment fetching globally enabled, issue key absent
from the per-repository checkpoint mapping, but with zero comments: the
claim's iff says the decision is true, the code decides false. -/
theorem C3_counterexample :
    should_fetch_comments_map true [] issueKeyA 0 = false
    ∧ ((([] : List (String × IssueCheckpoint)).lookup issueKeyA).isNone
        || ((0 : Nat)
              != previous_comment_count
                  (([] : List (String × IssueCheckpoint)).lookup issueKeyA)))
        = true := by
  decide

/-- C3 amended: with comment fetching globally enabled, the refetch decision
is true iff the issue has at least one comment AND (its key is absent from
the per-repository checkpoint mapping OR its current comment count differs
from the checkpointed one); and the decision is a function of only the
mapping, the key and the current count, so calling it twice with no
checkpoint update between the calls (the mapping unchanged) yields the
same answer both times, for any global gate value. -/
theorem C3_should_fetch_iff (repo_processed : List (String × IssueCheckpoint))
    (issue_key : String) (cur : Nat) :
    (should_fetch_comments_map true repo_processed issue_key cur = true
      ↔ 0 < cur ∧ (repo_processed.lookup issue_key = none
          ∨ cur ≠ previous_comment_count (repo_processed.lookup issue_key)))
    ∧ ∀ (fc : Bool) (later : List (String × IssueCheckpoint)),
        later = repo_processed →
        should_fetch_comments_map fc later issue_key cur
          = should_fetch_comments_map fc repo_processed issue_key cur := by
  constructor
  · cases hlk : repo_processed.lookup issue_key with
    | none => simp [should_fetch_comments_map, hlk]
    | some p => simp [should_fetch_comments_map, hlk, bne_iff_ne]
  · intro fc later hsame
    rw [hsame]

/-- Witness for the amended C3: a checkpointed issue whose count changed
from 5 to 7 is refetched, and the decision repeated on the unchanged
mapping agrees with itself. -/
theorem C3_should_fetch_iff_witness :
    should_fetch_comments_map true [(issueKeyA, ⟨5, some 100, some loginA⟩)]
        issueKeyA 7 = true
    ∧ should_fetch_comments_map false [(issueKeyA, ⟨5, some 100, some loginA⟩)]
        issueKeyA 7
      = should_fetch_comments_map false [(issueKeyA, ⟨5, some 100, some loginA⟩)]
        issueKeyA 7 :=
  ⟨(C3_should_fetch_iff [(issueKeyA, ⟨5, some 100, some loginA⟩)] issueKeyA 7).1.mpr
      ⟨by decide, Or.inr (by decide)⟩,
   (C3_should_fetch_iff [(issueKeyA, ⟨5, some 100, some loginA⟩)] issueKeyA 7).2
      false [(issueKeyA, ⟨5, some 100, some loginA⟩)] rfl⟩

/-- C4 counterexample: comment fetching globally suppressed, issue
checkpointed with 5 comments, now showing 7: the decision is a skip, yet the
stored checkpoint entry changes (its comment count becomes 7), refuting "on
a skip the checkpoint entry is left untouched". -/
theorem C4_counterexample :
    should_fetch_comments false (some ⟨5, some 100, some loginA⟩) 7 = false
    ∧ (process_issue false (some ⟨5, some 100, some loginA⟩)
          ⟨1, 7, loginB, 0⟩ CommentsFetch.failure).1
        ≠ ⟨5, some 100, some loginA⟩ := by
  constructor
  · decide
  · intro h
    have h5 : (7 : Nat) = 5 := congrArg IssueCheckpoint.num_comments h
    exact absurd h5 (by decide)

/-- C4 amended: every processed issue gets its checkpoint entry rewritten
with the current comment count; the emitted record's auxiliary fields
always equal the stored entry's; the auxiliary first-response fields are
freshly computed only by a successful refetch that finds a qualifying
comment, and otherwise — on a skip, after a failed refetch, and after a
successful refetch with no qualifying comment — carry over the cached
values; on a skip the emitted record therefore reuses the cached auxiliary
fields verbatim; and when the issue is already checkpointed with an
unchanged comment count the rewritten entry equals the old one, with no
comment fetch. -/
theorem C4_checkpoint_update (fc : Bool) (prev : Option IssueCheckpoint)
    (issue : Issue) (fetch : CommentsFetch) :
    (process_issue fc prev issue fetch).1.num_comments = issue.comments
    ∧ ((process_issue fc prev issue fetch).2.first_response_seconds
          = (process_issue fc prev issue fetch).1.first_response_seconds
        ∧ (process_issue fc prev issue fetch).2.first_responder
          = (process_issue fc prev issue fetch).1.first_responder)
    ∧ (should_fetch_comments fc prev issue.comments = false →
        (process_issue fc prev issue fetch).1.first_response_seconds
            = (prev.map IssueCheckpoint.first_response_seconds).getD none
        ∧ (process_issue fc prev issue fetch).1.first_responder
            = (prev.map IssueCheckpoint.first_responder).getD none
        ∧ (process_issue fc prev issue fetch).2.first_response_seconds
            = (prev.map IssueCheckpoint.first_response_seconds).getD none
        ∧ (process_issue fc prev issue fetch).2.first_responder
            = (prev.map IssueCheckpoint.first_responder).getD none)
    ∧ (fetch = CommentsFetch.failure →
        (process_issue fc prev issue fetch).1.first_response_seconds
            = (prev.map IssueCheckpoint.first_response_seconds).getD none
        ∧ (process_issue fc prev issue fetch).1.first_responder
            = (prev.map IssueCheckpoint.first_responder).getD none)
    ∧ (∀ comments : List IssueComment, fetch = CommentsFetch.success comments →
        first_response issue.user_login issue.created_at comments = none →
        (process_issue fc prev issue fetch).1.first_response_seconds
            = (prev.map IssueCheckpoint.first_response_seconds).getD none
        ∧ (process_issue fc prev issue fetch).1.first_responder
            = (prev.map IssueCheckpoint.first_responder).getD none)
    ∧ (∀ p : IssueCheckpoint, prev = some p → issue.comments = p.num_comments →
        (process_issue fc prev issue fetch).1 = p)
    ∧ (∀ (comments : List IssueComment) (t : Int) (login : String),
        should_fetch_comments fc prev issue.comments = true →
        fetch = CommentsFetch.success comments →
        first_response issue.user_login issue.created_at comments
          = some (t, login) →
        (process_issue fc prev issue fetch).1.first_response_seconds = some t
        ∧ (process_issue fc prev issue fetch).1.first_responder = some login) := by
  refine ⟨rfl, ⟨rfl, rfl⟩, ?_, ?_, ?_, ?_, ?_⟩
  · intro hskip
    simp [process_issue, hskip]
  · intro hfail
    subst hfail
    constructor <;> simp [process_issue]
  · intro comments hfe hfr
    subst hfe
    constructor <;> simp [process_issue, hfr]
  · intro p hp hcnt
    subst hp
    have hskip : should_fetch_comments fc (some p) p.num_comments = false := by
      simp [should_fetch_comments, previous_comment_count]
    cases p with
    | mk n frs frd => simp [process_issue, hskip, hcnt]
  · intro comments t login hsfc hfetch hfr
    subst hfetch
    simp [process_issue, hsfc, hfr]

/-- Witness for the amended C4, at four concrete inputs: a skip with
unchanged count 5 (entry rewritten unchanged, record reuses the cached
100-second first response); a failed refetch of an issue whose count grew
to 7 (count stored, cached response carried over); and a successful refetch
that finds only a comment by the issue's own author (cached responder
carried over). -/
theorem C4_checkpoint_update_witness :
    (process_issue true (some ⟨5, some 100, some loginA⟩)
        ⟨1, 5, loginB, 0⟩ CommentsFetch.failure).1 = ⟨5, some 100, some loginA⟩
    ∧ (process_issue true (some ⟨5, some 100, some loginA⟩)
        ⟨1, 5, loginB, 0⟩ CommentsFetch.failure).2.first_response_seconds
        = some 100
    ∧ (process_issue true (some ⟨5, some 100, some loginA⟩)
        ⟨1, 7, loginB, 0⟩ CommentsFetch.failure).1.first_response_seconds
        = some 100
    ∧ (process_issue true (some ⟨5, some 100, some loginA⟩)
        ⟨1, 7, loginB, 0⟩ CommentsFetch.failure).1.num_comments = 7
    ∧ (process_issue true (some ⟨5, some 100, some loginA⟩)
        ⟨1, 7, loginB, 0⟩
        (CommentsFetch.success [⟨some loginB, 50⟩])).1.first_responder
        = some loginA :=
  have h5 := C4_checkpoint_update true (some ⟨5, some 100, some loginA⟩)
    ⟨1, 5, loginB, 0⟩ CommentsFetch.failure
  have h7 := C4_checkpoint_update true (some ⟨5, some 100, some loginA⟩)
    ⟨1, 7, loginB, 0⟩ CommentsFetch.failure
  have h7s := C4_checkpoint_update true (some ⟨5, some 100, some loginA⟩)
    ⟨1, 7, loginB, 0⟩ (CommentsFetch.success [⟨some loginB, 50⟩])
  ⟨h5.2.2.2.2.2.1 ⟨5, some 100, some loginA⟩ rfl rfl,
   (h5.2.2.1 (by decide)).2.2.1,
   (h7.2.2.2.1 rfl).1,
   h7.1,
   (h7s.2.2.2.2.1 [⟨some loginB, 50⟩] rfl (by decide)).2⟩

/-- C5 counterexample: at remaining quota exactly 500 — at the configured
floor — the claim says refetching is not globally suppressed, but
`fetch_comments = remaining > 500` is false, so even an issue the per-entity
rule would refetch is skipped. -/
theorem C5_counterexample :
    fetch_comments_flag min_remaining_floor = false
    ∧ should_fetch_comments (fetch_comments_flag min_remaining_floor) none 3
        = false := by
  decide

/-- C5 amended: if the remaining quota is at or below 500, comment
refetching is suppressed for every issue regardless of its per-entity
signal and the skip warning is surfaced (below 500, `check_rate_limit` also
logs its low-quota warning); if the remaining quota is strictly above 500,
refetching is not globally suppressed. -/
theorem C5_quota_gate (remaining : Nat) :
    (remaining ≤ min_remaining_floor →
      (∀ (prev : Option IssueCheckpoint) (cur : Nat),
          should_fetch_comments (fetch_comments_flag remaining) prev cur = false)
      ∧ skip_comments_warning remaining = true)
    ∧ (remaining < min_remaining_floor → low_rate_warning remaining = true)
    ∧ (min_remaining_floor < remaining → fetch_comments_flag remaining = true) := by
  refine ⟨?_, ?_, ?_⟩
  · intro hle
    have hflag : fetch_comments_flag remaining = false := by
      simp only [fetch_comments_flag, decide_eq_false_iff_not, not_lt]
      exact hle
    refine ⟨?_, ?_⟩
    · intro prev cur
      simp [should_fetch_comments, hflag]
    · simp [skip_comments_warning, hflag]
  · intro hlt
    simp [low_rate_warning, hlt]
  · intro hgt
    simp [fetch_comments_flag, hgt]

/-- Witness for the amended C5 at remaining quota 400 and 501. -/
theorem C5_quota_gate_witness :
    should_fetch_comments (fetch_comments_flag 400) (some ⟨2, none, none⟩) 7
        = false
    ∧ skip_comments_warning 400 = true
    ∧ low_rate_warning 400 = true
    ∧ fetch_comments_flag 501 = true :=
  ⟨((C5_quota_gate 400).1 (by decide)).1 (some ⟨2, none, none⟩) 7,
   ((C5_quota_gate 400).1 (by decide)).2,
   (C5_quota_gate 400).2.1 (by decide),
   (C5_quota_gate 501).2.2 (by decide)⟩

/-! ## `traffic_stats` (`github_pipeline.py`): per-repo fetch, error
handling, join-by-timestamp merge -/

/-- One point of a traffic time series (`views` or `clones`): timestamp,
`count`, `uniques`. -/
structure TPoint where
  timestamp : String
  count : Nat
  uniques : Nat
deriving DecidableEq

/-- A record yielded by `traffic_stats`. -/
structure TrafficRec where
  pipeline_name : String
  timestamp : String
  views : Nat
  views_uniques : Nat
  clones : Nat
  clones_uniques : Nat
deriving DecidableEq

/-- `clones_by_timestamp = {c["timestamp"]: c for c in clones_list}`, then
`.get(t)`: a dict comprehension keeps the last entry per key, so lookup
finds the last matching element. -/
def clones_by_timestamp (clones_list : List TPoint) (t : String) : Option TPoint :=
  clones_list.reverse.find? (fun c => c.timestamp == t)

/-- The record yielded for a views point: counters of the clone entry with
the same timestamp, `{"count": 0, "uniques": 0}` when there is none. -/
def view_record (name : String) (clones_list : List TPoint) (v : TPoint) :
    TrafficRec :=
  match clones_by_timestamp clones_list v.timestamp with
  | some clone_data =>
    ⟨name, v.timestamp, v.count, v.uniques, clone_data.count, clone_data.uniques⟩
  | none => ⟨name, v.timestamp, v.count, v.uniques, 0, 0⟩

/-- The record yielded for a clones point with no corresponding views
point: zero views. -/
def clone_record (name : String) (c : TPoint) : TrafficRec :=
  ⟨name, c.timestamp, 0, 0, c.count, c.uniques⟩

/-- The records yielded for one repository: one per views point (clone
counters joined by timestamp), then one per clones point whose timestamp
has no views point. -/
def traffic_records (name : String) (views_list clones_list : List TPoint) :
    List TrafficRec :=
  views_list.map (view_record name clones_list)
    ++ (clones_list.filter
          (fun c => !(views_list.any (fun v => v.timestamp == c.timestamp)))).map
        (clone_record name)

/-- What happens to one repository inside the `for repo in filtered_repos`
loop of `traffic_stats`. -/
inductive RepoTraffic where
  /-- the `except requests.RequestException` branch: log and `continue` -/
  | skipped
  /-- both series empty: debug log and `continue` -/
  | noData
  /-- records yielded for this repository -/
  | records (recs : List TrafficRec)
deriving DecidableEq

/-- The loop body of `traffic_stats` for one repository, given the outcome
of the two `github_request` fetches (the clones fetch is never made when
the views fetch raises). -/
def traffic_repo (name : String) (views : Except GHError (List TPoint))
    (clones : Except GHError (List TPoint)) : RepoTraffic :=
  match views with
  | .error _ => .skipped
  | .ok views_list =>
    match clones with
    | .error _ => .skipped
    | .ok clones_list =>
      if views_list.isEmpty && clones_list.isEmpty then .noData
      else .records (traffic_records name views_list clones_list)

/-- The whole `traffic_stats` loop: every repository is processed in turn
and the yielded records concatenated; a skipped repository contributes
nothing and never stops the loop. -/
def traffic_stats
    (repos : List (String × Except GHError (List TPoint) × Except GHError (List TPoint))) :
    List TrafficRec :=
  (repos.map (fun rv =>
    match traffic_repo rv.1 rv.2.1 rv.2.2 with
    | .records recs => recs
    | _ => [])).flatten

/-- A repository name for concrete inputs. -/
def repoA : String := "sarek"

/-- Another repository name for concrete inputs. -/
def repoB : String := "rnaseq"

/-- A timestamp for concrete inputs. -/
def tsA : String := "2024-01-01"

/-- A timestamp for concrete inputs. -/
def tsB : String := "2024-01-02"

/-- A timestamp for concrete inputs. -/
def tsC : String := "2024-01-03"

/-- C7: the `except requests.RequestException` handler of `traffic_stats`
also catches the fail-fast rate-limit-exhaustion `HTTPError` raised by
`github_request` (it is a `RequestException`), so rate-limit exhaustion is
skipped like any other per-repository failure and never propagates; at the
failing input, the exhausted repository is skipped and collection continues
with the next repository. -/
theorem C7_rate_limit_swallowed :
    (∀ (name : String) (e : GHError) (clones : Except GHError (List TPoint)),
        traffic_repo name (.error e) clones = .skipped)
    ∧ (∀ (name : String) (views_list : List TPoint) (e : GHError),
        traffic_repo name (.ok views_list) (.error e) = .skipped)
    ∧ traffic_stats
        [(repoA, .error (.rateLimitExhausted (some 0)), .ok []),
         (repoB, .ok [⟨tsA, 3, 2⟩], .ok [])]
      = [⟨repoB, tsA, 3, 2, 0, 0⟩] := by
  refine ⟨fun name e clones => rfl, fun name views_list e => rfl, rfl⟩

/-- The spec-side merged record at timestamp `t`: each side's counters
taken from its (unique) series entry at `t`, zero when that side has no
entry at `t`. -/
def expectedRec (name : String) (views clones : List TPoint) (t : String) :
    TrafficRec :=
  { pipeline_name := name, timestamp := t,
    views := ((views.find? (fun v => v.timestamp == t)).map TPoint.count).getD 0,
    views_uniques :=
      ((views.find? (fun v => v.timestamp == t)).map TPoint.uniques).getD 0,
    clones := ((clones.find? (fun c => c.timestamp == t)).map TPoint.count).getD 0,
    clones_uniques :=
      ((clones.find? (fun c => c.timestamp == t)).map TPoint.uniques).getD 0 }

theorem find?_timestamp_eq_of_nodup (l : List TPoint) (x : TPoint)
    (hN : (l.map TPoint.timestamp).Nodup) (hx : x ∈ l) :
    l.find? (fun y => y.timestamp == x.timestamp) = some x := by
  induction l with
  | nil => cases hx
  | cons a as ih =>
    simp only [List.map_cons, List.nodup_cons] at hN
    obtain ⟨ha, hN2⟩ := hN
    rcases List.mem_cons.mp hx with rfl | hx2
    · rw [List.find?_cons_of_pos]
      simp
    · have hne : (a.timestamp == x.timestamp) = false := by
        simp only [beq_eq_false_iff_ne, ne_eq]
        intro he
        exact ha (he ▸ List.mem_map_of_mem TPoint.timestamp hx2)
      rw [List.find?_cons_of_neg _ (by simp [hne]), ih hN2 hx2]

theorem clones_by_timestamp_eq_find? (l : List TPoint) (t : String)
    (hN : (l.map TPoint.timestamp).Nodup) :
    clones_by_timestamp l t = l.find? (fun c => c.timestamp == t) := by
  unfold clones_by_timestamp
  cases h1 : l.reverse.find? (fun c => c.timestamp == t) with
  | none =>
    symm
    rw [List.find?_eq_none]
    intro x hx
    exact (List.find?_eq_none.mp h1) x (List.mem_reverse.mpr hx)
  | some y =>
    have hmem : y ∈ l.reverse := List.mem_of_find?_eq_some h1
    have hy := List.find?_some h1
    have ht : y.timestamp = t := by simpa using hy
    subst ht
    exact (find?_timestamp_eq_of_nodup l y hN (List.mem_reverse.mp hmem)).symm

theorem view_record_timestamp (name : String) (cl : List TPoint) (v : TPoint) :
    (view_record name cl v).timestamp = v.timestamp := by
  unfold view_record
  cases clones_by_timestamp cl v.timestamp <;> rfl

theorem traffic_records_timestamps (name : String)
    (views clones : List TPoint) :
    (traffic_records name views clones).map TrafficRec.timestamp
      = views.map TPoint.timestamp
        ++ (clones.filter
              (fun c => !(views.any (fun v => v.timestamp == c.timestamp)))).map
            TPoint.timestamp := by
  unfold traffic_records
  rw [List.map_append, List.map_map, List.map_map]
  congr 1
  exact List.map_congr_left (fun v _ => view_record_timestamp name clones v)

/-- C8: for a repository whose views series and clones series each have
pairwise-distinct timestamps, the yielded records have pairwise-distinct
timestamps (matching timestamps are merged into one record), the record
timestamps are exactly the union of the two series' timestamps, and every
record carries each side's counters from its series entry at that
timestamp, zero-filled when that side has no entry there. -/
theorem C8_traffic_merge (name : String) (views clones : List TPoint)
    (hv : (views.map TPoint.timestamp).Nodup)
    (hc : (clones.map TPoint.timestamp).Nodup) :
    ((traffic_records name views clones).map TrafficRec.timestamp).Nodup
    ∧ (∀ t, t ∈ (traffic_records name views clones).map TrafficRec.timestamp
        ↔ t ∈ views.map TPoint.timestamp ∨ t ∈ clones.map TPoint.timestamp)
    ∧ ∀ r ∈ traffic_records name views clones,
        r = expectedRec name views clones r.timestamp := by
  refine ⟨?_, ?_, ?_⟩
  · rw [traffic_records_timestamps]
    refine List.Nodup.append hv ?_ ?_
    · exact ((List.filter_sublist clones).map TPoint.timestamp).nodup hc
    · intro t htv htc
      obtain ⟨c, hcm, hct⟩ := List.mem_map.mp htc
      obtain ⟨hcmem, hpred⟩ := List.mem_filter.mp hcm
      rw [Bool.not_eq_true', List.any_eq_false] at hpred
      obtain ⟨v, hvm, hvt⟩ := List.mem_map.mp htv
      exact hpred v hvm (by simp [hvt.trans hct.symm])
  · intro t
    rw [traffic_records_timestamps, List.mem_append]
    constructor
    · rintro (h | h)
      · exact Or.inl h
      · obtain ⟨c, hcm, hct⟩ := List.mem_map.mp h
        exact Or.inr (List.mem_map.mpr ⟨c, (List.mem_filter.mp hcm).1, hct⟩)
    · rintro (h | h)
      · exact Or.inl h
      · by_cases hvt : t ∈ views.map TPoint.timestamp
        · exact Or.inl hvt
        · obtain ⟨c, hcm, hct⟩ := List.mem_map.mp h
          refine Or.inr (List.mem_map.mpr ⟨c, List.mem_filter.mpr ⟨hcm, ?_⟩, hct⟩)
          rw [Bool.not_eq_true', List.any_eq_false]
          intro v hvm he
          exact hvt (List.mem_map.mpr ⟨v, hvm, (by simpa using he : v.timestamp = c.timestamp).trans hct⟩)
  · intro r hr
    unfold traffic_records at hr
    rcases List.mem_append.mp hr with hrv | hrc
    · obtain ⟨v, hvm, hveq⟩ := List.mem_map.mp hrv
      subst hveq
      rw [view_record_timestamp]
      unfold view_record expectedRec
      rw [clones_by_timestamp_eq_find? clones v.timestamp hc,
        find?_timestamp_eq_of_nodup views v hv hvm]
      cases clones.find? (fun c => c.timestamp == v.timestamp) <;> rfl
    · obtain ⟨c, hcm, hceq⟩ := List.mem_map.mp hrc
      subst hceq
      obtain ⟨hcmem, hpred⟩ := List.mem_filter.mp hcm
      rw [Bool.not_eq_true', List.any_eq_false] at hpred
      have hvnone : views.find? (fun v => v.timestamp == c.timestamp) = none := by
        rw [List.find?_eq_none]
        exact hpred
      show clone_record name c = expectedRec name views clones c.timestamp
      unfold clone_record expectedRec
      rw [hvnone, find?_timestamp_eq_of_nodup clones c hc hcmem]
      rfl

/-- Witness for C8 at the claim's example: views at timestamps A and B,
clones at B and C; the merged timestamps are distinct and C (a
clones-only timestamp) is covered. -/
theorem C8_traffic_merge_witness :
    ((traffic_records repoA [⟨tsA, 3, 2⟩, ⟨tsB, 5, 4⟩]
        [⟨tsB, 7, 6⟩, ⟨tsC, 9, 8⟩]).map TrafficRec.timestamp).Nodup
    ∧ tsC ∈ (traffic_records repoA [⟨tsA, 3, 2⟩, ⟨tsB, 5, 4⟩]
        [⟨tsB, 7, 6⟩, ⟨tsC, 9, 8⟩]).map TrafficRec.timestamp :=
  have h := C8_traffic_merge repoA [⟨tsA, 3, 2⟩, ⟨tsB, 5, 4⟩]
    [⟨tsB, 7, 6⟩, ⟨tsC, 9, 8⟩] (by decide) (by decide)
  ⟨h.1, (h.2.1 tsC).mpr (Or.inr (by decide))⟩

/-! ## `calculate_trust_score` (`regulatory/report_helpers.py`), idealised
over the real numbers (the Python code computes with floats) -/

/-- An input row, reduced to the fields `calculate_trust_score` reads.
A `none` encodes a value for which `pd.notna` is false; for the counter
fields a missing key (defaulted to 0 by `row.get`) takes the same branch as
a `none`, so it is folded into it.  `days_since_release` stands for the
already-computed `(pd.Timestamp.now(tz='UTC') - row['last_release_date']).days`. -/
structure TrustRow where
  days_since_release : Option ℝ
  issue_count : Option ℝ
  closed_issue_count : Option ℝ
  median_seconds_to_issue_closed : Option ℝ
  pr_count : Option ℝ
  closed_pr_count : Option ℝ
  median_seconds_to_pr_closed : Option ℝ
  stargazers_count : Option ℝ
  forks_count : Option ℝ

/-- Maintenance Activity: `100 * np.exp(-days_since_release / 240)`, 0 when
there is no release. -/
noncomputable def maintenance_score (row : TrustRow) : ℝ :=
  match row.days_since_release with
  | some days_since_release => 100 * Real.exp (-days_since_release / 240)
  | none => 0

/-- Issue Resolution: 70% closure rate, 30% speed
(`100 * np.exp(-days_to_close / 45)`, 50 when no data); 70 when there are
no issues. -/
noncomputable def issue_resolution_score (row : TrustRow) : ℝ :=
  match row.issue_count with
  | some issue_count =>
    if 0 < issue_count then
      let close_ratio : ℝ :=
        match row.closed_issue_count with
        | some closed => closed / issue_count
        | none => 0
      let closure_score := close_ratio * 100
      let speed_score : ℝ :=
        match row.median_seconds_to_issue_closed with
        | some median_issue_time => 100 * Real.exp (-(median_issue_time / 86400) / 45)
        | none => 50
      0.7 * closure_score + 0.3 * speed_score
    else 70
  | none => 70

/-- PR Management: 70% merge rate, 30% review speed
(`100 * np.exp(-days_to_merge / 14)`, 50 when no data); 70 when there are
no PRs. -/
noncomputable def pr_management_score (row : TrustRow) : ℝ :=
  match row.pr_count with
  | some pr_count =>
    if 0 < pr_count then
      let pr_close_ratio : ℝ :=
        match row.closed_pr_count with
        | some closed => closed / pr_count
        | none => 0
      let merge_score := pr_close_ratio * 100
      let review_speed_score : ℝ :=
        match row.median_seconds_to_pr_closed with
        | some median_pr_time => 100 * Real.exp (-(median_pr_time / 86400) / 14)
        | none => 50
      0.7 * merge_score + 0.3 * review_speed_score
    else 70
  | none => 70

/-- Community Engagement: logarithmically scaled stars
(`np.log1p(stars) / np.log1p(500)`) and forks (denominator `np.log1p(200)`),
each capped at 100; 60% stars, 40% forks. -/
noncomputable def community_score (row : TrustRow) : ℝ :=
  let stars := row.stargazers_count.getD 0
  let forks := row.forks_count.getD 0
  let star_score := min 100 (Real.log (1 + stars) / Real.log (1 + 500) * 100)
  let fork_score := min 100 (Real.log (1 + forks) / Real.log (1 + 200) * 100)
  0.6 * star_score + 0.4 * fork_score

/-- Python `round(x, 1)`; at an exact midpoint Python rounds half to even
while `round` rounds half up — no claim evaluates a midpoint. -/
noncomputable def round1 (x : ℝ) : ℝ := (round (10 * x) : ℤ) / 10

/-- `calculate_trust_score(row)`: the weighted sum of the four components,
rounded to one decimal place. -/
noncomputable def calculate_trust_score (row : TrustRow) : ℝ :=
  round1 (0.30 * maintenance_score row + 0.25 * issue_resolution_score row
    + 0.20 * pr_management_score row + 0.25 * community_score row)

/-- A decay with a true half-life `h`: the value halves each time `x` grows
by `h`.  Used to state the claim's "half-life 240 days / 14 days" reading. -/
noncomputable def half_life_decay (h x : ℝ) : ℝ :=
  100 * (1 / 2 : ℝ) ^ (x / h)

/-- The claim's maintenance component: exponential decay in days since last
release with half-life 240 days, 0 when there is no release. -/
noncomputable def claimed_maintenance_score (row : TrustRow) : ℝ :=
  match row.days_since_release with
  | some days_since_release => half_life_decay 240 days_since_release
  | none => 0

/-- The claim's PR component: as the code's, but with review-speed decay of
true half-life 14 days. -/
noncomputable def claimed_pr_management_score (row : TrustRow) : ℝ :=
  match row.pr_count with
  | some pr_count =>
    if 0 < pr_count then
      let pr_close_ratio : ℝ :=
        match row.closed_pr_count with
        | some closed => closed / pr_count
        | none => 0
      let review_speed_score : ℝ :=
        match row.median_seconds_to_pr_closed with
        | some median_pr_time => half_life_decay 14 (median_pr_time / 86400)
        | none => 50
      0.7 * (pr_close_ratio * 100) + 0.3 * review_speed_score
    else 70
  | none => 70

/-- The score the claim describes: the code's weighted sum, but with the
maintenance and PR-speed decays read as true half-lives of 240 and 14
days. -/
noncomputable def claimed_trust_score (row : TrustRow) : ℝ :=
  round1 (0.30 * claimed_maintenance_score row
    + 0.25 * issue_resolution_score row
    + 0.20 * claimed_pr_management_score row
    + 0.25 * community_score row)

/-- The counterexample row: one release exactly 240 days old, no issue, PR,
star or fork data. -/
noncomputable def cexRow : TrustRow :=
  ⟨some 240, none, none, none, none, none, none, none, none⟩

theorem community_score_cexRow : community_score cexRow = 0 := by
  unfold community_score cexRow
  norm_num [Real.log_one]

/-- C9 counterexample: on a row whose only datum is a release 240 days old,
the code returns 42.5 (the maintenance component is `100·e⁻¹` ≈ 36.8) while
the claimed half-life-240 reading gives 46.5 (maintenance component 50). -/
theorem C9_counterexample :
    calculate_trust_score cexRow = 425 / 10
    ∧ claimed_trust_score cexRow = 465 / 10
    ∧ calculate_trust_score cexRow ≠ claimed_trust_score cexRow := by
  have hgt := Real.exp_one_gt_d9
  have hlt := Real.exp_one_lt_d9
  have hpos : (0 : ℝ) < Real.exp 1 := Real.exp_pos 1
  have hinv : Real.exp 1 * (Real.exp 1)⁻¹ = 1 := mul_inv_cancel₀ hpos.ne'
  have hinvpos : (0 : ℝ) < (Real.exp 1)⁻¹ := inv_pos.mpr hpos
  have hcode : calculate_trust_score cexRow = 425 / 10 := by
    unfold calculate_trust_score
    rw [community_score_cexRow]
    have hm : maintenance_score cexRow = 100 * Real.exp (-(240 : ℝ) / 240) := rfl
    have hi : issue_resolution_score cexRow = 70 := rfl
    have hp : pr_management_score cexRow = 70 := rfl
    rw [hm, hi, hp]
    have harg : -(240 : ℝ) / 240 = -1 := by norm_num
    rw [harg]
    have hsum : (0.30 : ℝ) * (100 * Real.exp (-1)) + 0.25 * 70 + 0.20 * 70 + 0.25 * 0
        = 30 * Real.exp (-1) + 31.5 := by ring
    rw [hsum]
    unfold round1
    have hround : round ((10 : ℝ) * (30 * Real.exp (-1) + 31.5)) = 425 := by
      have hx : (10 : ℝ) * (30 * Real.exp (-1) + 31.5)
          = 300 * (Real.exp 1)⁻¹ + 315 := by
        rw [Real.exp_neg]
        ring
      rw [hx, round_eq]
      have hfl : (⌊(300 * (Real.exp 1)⁻¹ + 315 + 1 / 2 : ℝ)⌋ : ℤ) = 425 := by
        rw [Int.floor_eq_iff]
        constructor
        · push_cast
          nlinarith [mul_pos hinvpos (sub_pos.mpr hlt)]
        · push_cast
          nlinarith [mul_pos hinvpos (sub_pos.mpr hgt)]
      exact hfl
    rw [hround]
    norm_num
  have hclaim : claimed_trust_score cexRow = 465 / 10 := by
    unfold claimed_trust_score
    rw [community_score_cexRow]
    have hm : claimed_maintenance_score cexRow = half_life_decay 240 240 := rfl
    have hi : issue_resolution_score cexRow = 70 := rfl
    have hp : claimed_pr_management_score cexRow = 70 := rfl
    rw [hm, hi, hp]
    have hhalf : half_life_decay 240 240 = 50 := by
      unfold half_life_decay
      rw [show (240 : ℝ) / 240 = 1 by norm_num, Real.rpow_one]
      norm_num
    rw [hhalf]
    have hsum : (0.30 : ℝ) * 50 + 0.25 * 70 + 0.20 * 70 + 0.25 * 0 = 46.5 := by
      norm_num
    rw [hsum]
    unfold round1
    have h465 : (10 : ℝ) * 46.5 = ((465 : ℤ) : ℝ) := by norm_num
    rw [h465, round_intCast]
    norm_num
  refine ⟨hcode, hclaim, ?_⟩
  rw [hcode, hclaim]
  norm_num

/-- Amended claim, maintenance: weight 0.30, exponential decay
`e^(-(age/240))` in the days since the last release (decay constant 240
days, so the score halves every `240·ln 2 ≈ 166` days), 0 with no release. -/
noncomputable def amended_maintenance_score (row : TrustRow) : ℝ :=
  match row.days_since_release with
  | some age => 100 * Real.exp (-(age / 240))
  | none => 0

/-- Amended claim, issue resolution: seven parts closure percentage (closed
over total, missing closed count read as zero) and three parts speed score
`100·e^(-(days/45))` (50 with no timing data); 70 with no issues. -/
noncomputable def amended_issue_resolution_score (row : TrustRow) : ℝ :=
  match row.issue_count with
  | some total =>
    if 0 < total then
      (7 * (row.closed_issue_count.getD 0 / total * 100)
        + 3 * (match row.median_seconds_to_issue_closed with
            | some secs => 100 * Real.exp (-(secs / 86400 / 45))
            | none => 50)) / 10
    else 70
  | none => 70

/-- Amended claim, PR management: analogous to issue resolution with decay
constant 14 days; 70 with no PRs. -/
noncomputable def amended_pr_management_score (row : TrustRow) : ℝ :=
  match row.pr_count with
  | some total =>
    if 0 < total then
      (7 * (row.closed_pr_count.getD 0 / total * 100)
        + 3 * (match row.median_seconds_to_pr_closed with
            | some secs => 100 * Real.exp (-(secs / 86400 / 14))
            | none => 50)) / 10
    else 70
  | none => 70

/-- Amended claim, community engagement: logarithmically scaled stars
(`100·ln(1+stars)/ln 501`) and forks (`100·ln(1+forks)/ln 201`), each
capped at 100, blended three parts stars to two parts forks. -/
noncomputable def amended_community_score (row : TrustRow) : ℝ :=
  (3 * min 100 (100 * (Real.log (1 + row.stargazers_count.getD 0) / Real.log 501))
    + 2 * min 100 (100 * (Real.log (1 + row.forks_count.getD 0) / Real.log 201))) / 5

/-- Amended claim, total: maintenance weighted 0.30, issue resolution 0.25,
PR management 0.20, community 0.25, rounded to one decimal place. -/
noncomputable def amended_trust_score (row : TrustRow) : ℝ :=
  round1 ((3 * amended_maintenance_score row + 2 * amended_pr_management_score row) / 10
    + (amended_issue_resolution_score row + amended_community_score row) / 4)

theorem maintenance_score_eq (row : TrustRow) :
    maintenance_score row = amended_maintenance_score row := by
  unfold maintenance_score amended_maintenance_score
  cases row.days_since_release with
  | none => rfl
  | some d =>
    show 100 * Real.exp (-d / 240) = 100 * Real.exp (-(d / 240))
    rw [neg_div]

theorem issue_resolution_score_eq (row : TrustRow) :
    issue_resolution_score row = amended_issue_resolution_score row := by
  unfold issue_resolution_score amended_issue_resolution_score
  cases row.issue_count with
  | none => rfl
  | some total =>
    simp only
    by_cases h : 0 < total
    · rw [if_pos h, if_pos h]
      cases row.closed_issue_count with
      | none =>
        cases row.median_seconds_to_issue_closed with
        | none => simp only [Option.getD_none]; ring
        | some secs =>
          simp only [Option.getD_none]
          rw [show -(secs / 86400) / 45 = -(secs / 86400 / 45) by ring]
          ring
      | some closed =>
        cases row.median_seconds_to_issue_closed with
        | none => simp only [Option.getD_some]; ring
        | some secs =>
          simp only [Option.getD_some]
          rw [show -(secs / 86400) / 45 = -(secs / 86400 / 45) by ring]
          ring
    · rw [if_neg h, if_neg h]

theorem pr_management_score_eq (row : TrustRow) :
    pr_management_score row = amended_pr_management_score row := by
  unfold pr_management_score amended_pr_management_score
  cases row.pr_count with
  | none => rfl
  | some total =>
    simp only
    by_cases h : 0 < total
    · rw [if_pos h, if_pos h]
      cases row.closed_pr_count with
      | none =>
        cases row.median_seconds_to_pr_closed with
        | none => simp only [Option.getD_none]; ring
        | some secs =>
          simp only [Option.getD_none]
          rw [show -(secs / 86400) / 14 = -(secs / 86400 / 14) by ring]
          ring
      | some closed =>
        cases row.median_seconds_to_pr_closed with
        | none => simp only [Option.getD_some]; ring
        | some secs =>
          simp only [Option.getD_some]
          rw [show -(secs / 86400) / 14 = -(secs / 86400 / 14) by ring]
          ring
    · rw [if_neg h, if_neg h]

theorem community_score_eq (row : TrustRow) :
    community_score row = amended_community_score row := by
  unfold community_score amended_community_score
  show 0.6 * min 100 (Real.log (1 + row.stargazers_count.getD 0) / Real.log (1 + 500) * 100)
        + 0.4 * min 100 (Real.log (1 + row.forks_count.getD 0) / Real.log (1 + 200) * 100)
      = _
  rw [show (1 : ℝ) + 500 = 501 by norm_num, show (1 : ℝ) + 200 = 201 by norm_num,
    mul_comm (Real.log (1 + row.stargazers_count.getD 0) / Real.log 501) 100,
    mul_comm (Real.log (1 + row.forks_count.getD 0) / Real.log 201) 100]
  ring

/-- C9 amended: for every row, `calculate_trust_score` equals the weighted
sum — maintenance 0.30 (exponential decay with decay constant 240 days, 0
with no release), issue resolution 0.25 (70% closure ratio plus 30%
exponential-decay speed, 70 with no issues), PR management 0.20 (analogous,
decay constant 14 days, 70 with no PRs), community 0.25 (log-scaled stars
and forks each capped at 100) — rounded to one decimal place. -/
theorem C9_trust_score_formula (row : TrustRow) :
    calculate_trust_score row = amended_trust_score row := by
  unfold calculate_trust_score amended_trust_score
  rw [maintenance_score_eq, issue_resolution_score_eq, pr_management_score_eq,
    community_score_eq]
  congr 1
  ring

end NFCoreStats
